import Mathlib

/-!
Verification of the filesystem-tree ingestion engine of `git-explorer`
(`src/server/routers/tree_explorer.py`): the node model, the serializer
`_filesystem_node_to_json`, and the `/api/tree-data` endpoint logic of
`get_tree_data`, embedded shallowly as pure Lean functions.

The router imports `FileSystemNode`, `FileSystemNodeType`, `FileSystemStats`
and `_process_node` from the external `gitingest` package, which is not part
of this repository; those are modelled from the specification (§3, §4.1) and
the traversal `_process_node` is abstracted as an explicit function argument,
since the router only calls it and never inspects it.
-/

namespace TreeExplorer

/-- The node kind enum `FileSystemNodeType` (FILE / DIRECTORY). -/
inductive FileSystemNodeType where
  | FILE
  | DIRECTORY
deriving DecidableEq, Repr

/-- Python `Enum.name` of a `FileSystemNodeType` member. -/
def FileSystemNodeType.enumName : FileSystemNodeType → String
  | .FILE => "FILE"
  | .DIRECTORY => "DIRECTORY"

/-- Modelled from the spec: the Node entity of §3 (`FileSystemNode` lives in
`gitingest.schemas`, which is not under src/). Fields: `name`, `kind`,
relative path string and absolute path reference, `size`, `file_count`,
`dir_count`, `depth`, lazily materialized `content` (made an explicit field
here, per §9 "reimplement as an explicit read"), and the ordered `children`. -/
inductive FileSystemNode where
  | mk (name : String) (type : FileSystemNodeType) (path_str : String)
      (path : String) (size : Nat) (file_count : Nat) (dir_count : Nat)
      (depth : Nat) (content : String) (children : List FileSystemNode)

def FileSystemNode.name : FileSystemNode → String
  | .mk n _ _ _ _ _ _ _ _ _ => n

def FileSystemNode.type : FileSystemNode → FileSystemNodeType
  | .mk _ t _ _ _ _ _ _ _ _ => t

def FileSystemNode.path_str : FileSystemNode → String
  | .mk _ _ p _ _ _ _ _ _ _ => p

def FileSystemNode.path : FileSystemNode → String
  | .mk _ _ _ p _ _ _ _ _ _ => p

def FileSystemNode.size : FileSystemNode → Nat
  | .mk _ _ _ _ s _ _ _ _ _ => s

def FileSystemNode.file_count : FileSystemNode → Nat
  | .mk _ _ _ _ _ f _ _ _ _ => f

def FileSystemNode.dir_count : FileSystemNode → Nat
  | .mk _ _ _ _ _ _ d _ _ _ => d

def FileSystemNode.depth : FileSystemNode → Nat
  | .mk _ _ _ _ _ _ _ d _ _ => d

def FileSystemNode.content : FileSystemNode → String
  | .mk _ _ _ _ _ _ _ _ c _ => c

def FileSystemNode.children : FileSystemNode → List FileSystemNode
  | .mk _ _ _ _ _ _ _ _ _ c => c

/-- Modelled from the spec: constructing a `FileSystemNode` giving only
`name`, `type`, `path_str` and `path` (as `get_tree_data` does for the root
node) leaves the metric fields `size`, `file_count`, `dir_count`, `depth` at
their construction default `0` and `children` empty; `content` is the text
the lazy content attribute would read for the path. -/
def FileSystemNode.make (name : String) (type : FileSystemNodeType)
    (path_str : String) (path : String) (content : String) : FileSystemNode :=
  .mk name type path_str path 0 0 0 0 content []

/-- Python `str.lower()`, character by character (all strings it is applied
to in the source — enum labels and extensions — are ASCII). -/
def strLower (s : String) : String := String.mk (s.data.map Char.toLower)

/-- Index of the last `.` in a character list (Python `str.rfind`). -/
def rfindDot (l : List Char) : Option Nat :=
  match l.reverse.findIdx? (fun c => c == '.') with
  | some j => some (l.length - 1 - j)
  | none => none

/-- Python `pathlib.PurePath.suffix` on one path component `name`:
with `i = name.rfind(".")`, the suffix is `name[i:]` when
`0 < i < len(name)-1`, else the empty string. -/
def pySuffix (name : String) : String :=
  let l := name.data
  match rfindDot l with
  | some i => if 0 < i ∧ i < l.length - 1 then String.mk (l.drop i) else ""
  | none => ""

/-- The final `/`-separated component of a POSIX path string, i.e. Python
`Path(p).name` for paths without a trailing separator. -/
def pathFinalComponent (p : String) : String :=
  String.mk ((p.data.reverse.takeWhile (fun c => c != '/')).reverse)

/-- The serializer's extension expression
`node.path.suffix.lower() if node.path.suffix else ""` (line 38). -/
def fileExtension (path : String) : String :=
  if pySuffix (pathFinalComponent path) = "" then ""
  else strLower (pySuffix (pathFinalComponent path))

/-- JSON-serializable values appearing in the documents the serializer
builds: strings, non-negative integers, and lists of child documents. -/
inductive JValue where
  | s : String → JValue
  | n : Nat → JValue
  | arr : List (List (String × JValue)) → JValue

/-- A serialized document: an insertion-ordered mapping (a Python dict). -/
abbrev JsonDoc := List (String × JValue)

mutual

/-- Embedding of `_filesystem_node_to_json` (tree_explorer.py lines 18-43):
the seven common fields in insertion order, then `content`/`extension` for a
FILE node or `children` for a DIRECTORY node. -/
def _filesystem_node_to_json : FileSystemNode → JsonDoc
  | .mk name ty path_str path size file_count dir_count depth content children =>
      [("name", JValue.s name),
       ("type", JValue.s (strLower ty.enumName)),
       ("path", JValue.s path_str),
       ("size", JValue.n size),
       ("depth", JValue.n depth),
       ("file_count", JValue.n file_count),
       ("dir_count", JValue.n dir_count)] ++
      (match ty with
       | .FILE =>
          [("content", JValue.s content),
           ("extension", JValue.s (fileExtension path))]
       | .DIRECTORY =>
          [("children", JValue.arr (childrenToJson children))])
termination_by structural n => n

/-- Recursive serialization of a children list, in order (the list
comprehension on line 41). -/
def childrenToJson : List FileSystemNode → List JsonDoc
  | [] => []
  | c :: cs => _filesystem_node_to_json c :: childrenToJson cs
termination_by structural l => l

end

/-- Ordered-dict key lookup, first match wins (keys here are unique). -/
def jsonLookup : JsonDoc → String → Option JValue
  | [], _ => none
  | (k, v) :: rest, key => if k = key then some v else jsonLookup rest key

/-- Whether a serialized document contains a key. -/
def hasKey (d : JsonDoc) (k : String) : Bool :=
  (jsonLookup d k).isSome

/-- Modelled from the spec: the Stats Accumulator of §3 (`FileSystemStats`
lives in `gitingest.schemas`, which is not under src/): a visited set of
canonical locations, `total_files`, and `total_size`. -/
structure FileSystemStats where
  visited : List String
  total_files : Nat
  total_size : Nat

/-- A fresh accumulator, as created by `FileSystemStats()` on line 106. -/
def FileSystemStats.init : FileSystemStats := ⟨[], 0, 0⟩

/-- Modelled from the spec: the whole-repository size ceiling of §4.1
("observed ceiling: 1 GiB"). No corresponding constant or comparison
appears anywhere in `tree_explorer.py`. -/
def MAX_TOTAL_SIZE_BYTES : Nat := 1024 * 1024 * 1024

/-- The fields of the parsed query used by `get_tree_data` when building
its response (`query.url`, `query.slug`, `query.user_name`,
`query.repo_name`). -/
structure QueryInfo where
  url : String
  slug : String
  user_name : String
  repo_name : String

/-- The filesystem-dependent inputs of `get_tree_data` after `parse_query`
and `clone_repo` have succeeded: `path.name`, the relative
`str(path.relative_to(query.local_path))`, the absolute path string, the
text the root file holds (read by the lazy content attribute when the root
is a FILE), the result of `path.is_dir()`, and the external traversal
`_process_node` from `gitingest.ingestion`, abstracted as a function from
the fresh root node and a fresh accumulator to the populated node and the
accumulated stats. -/
structure IngestInputs where
  pathName : String
  pathStr : String
  pathAbs : String
  rootContent : String
  pathIsDir : Bool
  build : FileSystemNode → FileSystemStats → FileSystemNode × FileSystemStats

/-- Root-node construction and conditional traversal of `get_tree_data`
(lines 97-113): the root's name is `path.name or query.slug`, its kind
follows `path.is_dir()`, and only for a directory are a fresh
`FileSystemStats` created and `_process_node` invoked. The second
component records the accumulator (absent when none was created). -/
def resolveRootNode (q : QueryInfo) (i : IngestInputs) :
    FileSystemNode × Option FileSystemStats :=
  let rootName := if i.pathName = "" then q.slug else i.pathName
  let ty := if i.pathIsDir then FileSystemNodeType.DIRECTORY
            else FileSystemNodeType.FILE
  let root0 := FileSystemNode.make rootName ty i.pathStr i.pathAbs i.rootContent
  if i.pathIsDir then
    let pr := i.build root0 FileSystemStats.init
    (pr.1, some pr.2)
  else
    (root0, none)

/-- The note line appended for an empty repository (line 121). -/
def emptyRepoNote : String := "Note: Repository appears to be empty"

/-- The f-string summary of line 117. -/
def baseSummary (slug : String) (root : FileSystemNode) : String :=
  "Repository: " ++ slug ++ "\nFiles: " ++ toString root.file_count ++
    "\nDirectories: " ++ toString root.dir_count

/-- Summary construction of lines 117-121: the base summary, plus the
empty-repository note when `file_count` and `dir_count` are both zero. -/
def makeSummary (slug : String) (root : FileSystemNode) : String :=
  if root.file_count = 0 ∧ root.dir_count = 0 then
    baseSummary slug root ++ ("\n" ++ emptyRepoNote)
  else baseSummary slug root

/-- The `repo_info` object of the success response (lines 127-134). -/
structure RepoInfo where
  url : String
  slug : String
  user_name : String
  repo_name : String
  total_files : Nat
  total_dirs : Nat
deriving DecidableEq

/-- The JSON body returned by `get_tree_data`: either the success shape
`{success, data, summary, repo_info}` or the error shape
`{success, error}`; keys absent from a shape are `none`. -/
structure ResponseBody where
  success : Bool
  data : Option JsonDoc
  summary : Option String
  repo_info : Option RepoInfo
  error : Option String

/-- A `JSONResponse` with its HTTP status code (200 default, 400 on error). -/
structure TreeDataResponse where
  status_code : Nat
  body : ResponseBody

/-- Embedding of the `get_tree_data` endpoint (lines 60-143). The fallible
prefix of the body — `parse_query`, `clone_repo`, path resolution — is
summarized as an `Except`: `.error e` is any exception whose `str` is `e`,
caught by the `except` clause on line 136, and `.ok i` carries the resolved
inputs. On success the root node is built (and for a directory populated by
the traversal), serialized, and returned with the summary and `repo_info`;
the accumulated `FileSystemStats` are never consulted again. -/
def get_tree_data (q : QueryInfo) (r : Except String IngestInputs) :
    TreeDataResponse :=
  match r with
  | .error e =>
      ⟨400, { success := false, data := none, summary := none,
              repo_info := none, error := some e }⟩
  | .ok i =>
      let root_node := (resolveRootNode q i).1
      let json_data := _filesystem_node_to_json root_node
      let summary := makeSummary q.slug root_node
      ⟨200, { success := true, data := some json_data, summary := some summary,
              repo_info := some ⟨q.url, q.slug, q.user_name, q.repo_name,
                                 root_node.file_count, root_node.dir_count⟩,
              error := none }⟩

/-- Sample FILE node, mirroring the repository's unit tests
(`test_filesystem_node_to_json_file`). -/
def sampleFile : FileSystemNode :=
  .mk "test.py" .FILE "/test/test.py" "/test/test.py" 100 0 0 1 "" []

/-- Sample child FILE node, mirroring the repository's unit tests. -/
def sampleChild : FileSystemNode :=
  .mk "child.py" .FILE "/test/src/child.py" "/test/src/child.py" 50 0 0 2 "" []

/-- Sample DIRECTORY node with one child, mirroring the unit tests
(`test_filesystem_node_to_json_directory`). -/
def sampleDir : FileSystemNode :=
  .mk "src" .DIRECTORY "/test/src" "/test/src" 50 1 0 1 "" [sampleChild]

/-- The query of the repository's own size-limit test. -/
def largeRepoQuery : QueryInfo :=
  ⟨"https://github.com/user/large-repo", "user/large-repo", "user", "large-repo"⟩

/-- The 2 GB repository node of `test_tree_data_api_large_repository_size_limit`. -/
def largeRepoNode : FileSystemNode :=
  .mk "large-repo" .DIRECTORY "large-repo" "/tmp/large-repo"
    2000000000 1000 100 0 "" []

/-- The accumulator after walking the 2 GB repository (2,000,000,000 bytes,
more than the 1 GiB ceiling). -/
def largeRepoStats : FileSystemStats := ⟨[], 1000, 2000000000⟩

/-- Resolved inputs for ingesting the 2 GB repository: the traversal
populates the root with the oversized tree and accumulates
`largeRepoStats`. -/
def largeRepoInputs : IngestInputs :=
  ⟨"large-repo", "large-repo", "/tmp/large-repo", "", true,
   fun _ _ => (largeRepoNode, largeRepoStats)⟩

/-- The query of the repository's empty-repository test. -/
def emptyRepoQuery : QueryInfo :=
  ⟨"https://github.com/user/empty-repo", "empty-repo", "user", "empty-repo"⟩

/-- The empty repository node of `test_tree_data_api_empty_repository`. -/
def emptyRepoNode : FileSystemNode :=
  .mk "empty-repo" .DIRECTORY "." "/tmp/empty-repo" 0 0 0 0 "" []

/-- Resolved inputs for ingesting the empty repository. -/
def emptyRepoInputs : IngestInputs :=
  ⟨"empty-repo", ".", "/tmp/empty-repo", "", true,
   fun _ _ => (emptyRepoNode, ⟨[], 0, 0⟩)⟩

/-- `childrenToJson` is exactly the ordered map of the serializer over a
children list. -/
theorem childrenToJson_eq_map (l : List FileSystemNode) :
    childrenToJson l = l.map _filesystem_node_to_json := by
  induction l with
  | nil => rfl
  | cons c cs ih => simp [childrenToJson, ih]

/-- Every serialized document carries the node's `depth` under `"depth"`. -/
theorem lookup_depth (n : FileSystemNode) :
    jsonLookup (_filesystem_node_to_json n) "depth" = some (JValue.n n.depth) := by
  obtain ⟨nm, ty, ps, p, sz, fc, dc, d, c, ch⟩ := n
  cases ty <;> with_unfolding_all rfl

/-- A document has a `"children"` key exactly for DIRECTORY nodes. -/
theorem hasKey_children_eq (n : FileSystemNode) :
    hasKey (_filesystem_node_to_json n) "children" =
      decide (n.type = FileSystemNodeType.DIRECTORY) := by
  obtain ⟨nm, ty, ps, p, sz, fc, dc, d, c, ch⟩ := n
  cases ty <;> with_unfolding_all rfl

/-- A document has a `"content"` key exactly for FILE nodes. -/
theorem hasKey_content_eq (n : FileSystemNode) :
    hasKey (_filesystem_node_to_json n) "content" =
      decide (n.type = FileSystemNodeType.FILE) := by
  obtain ⟨nm, ty, ps, p, sz, fc, dc, d, c, ch⟩ := n
  cases ty <;> with_unfolding_all rfl

/-- A DIRECTORY document's `"children"` value is the ordered recursive
serialization of the node's children. -/
theorem lookup_children_map (n : FileSystemNode)
    (h : n.type = FileSystemNodeType.DIRECTORY) :
    jsonLookup (_filesystem_node_to_json n) "children" =
      some (JValue.arr (n.children.map _filesystem_node_to_json)) := by
  obtain ⟨nm, ty, ps, p, sz, fc, dc, d, c, ch⟩ := n
  simp [FileSystemNode.type] at h
  subst h
  rw [FileSystemNode.children, ← childrenToJson_eq_map]
  with_unfolding_all rfl

/-- Claim C1: the serialized document branches exactly on node kind — a FILE
node's document contains the keys `content` and `extension` and no
`children` key, and a DIRECTORY node's document contains a `children` key
holding a list (the ordered child documents, possibly empty, never omitted)
and no `content` or `extension` key. -/
theorem C1_document_branches_on_kind (n : FileSystemNode) :
    (n.type = FileSystemNodeType.FILE →
      hasKey (_filesystem_node_to_json n) "content" = true ∧
      hasKey (_filesystem_node_to_json n) "extension" = true ∧
      hasKey (_filesystem_node_to_json n) "children" = false) ∧
    (n.type = FileSystemNodeType.DIRECTORY →
      hasKey (_filesystem_node_to_json n) "children" = true ∧
      jsonLookup (_filesystem_node_to_json n) "children" =
        some (JValue.arr (n.children.map _filesystem_node_to_json)) ∧
      hasKey (_filesystem_node_to_json n) "content" = false ∧
      hasKey (_filesystem_node_to_json n) "extension" = false) := by
  obtain ⟨nm, ty, ps, p, sz, fc, dc, d, c, ch⟩ := n
  cases ty with
  | FILE =>
    refine ⟨fun _ => ⟨?_, ?_, ?_⟩, fun h => by simp [FileSystemNode.type] at h⟩ <;>
      with_unfolding_all rfl
  | DIRECTORY =>
    refine ⟨fun h => by simp [FileSystemNode.type] at h, fun _ => ⟨?_, ?_, ?_, ?_⟩⟩
    · with_unfolding_all rfl
    · rw [FileSystemNode.children, ← childrenToJson_eq_map]
      with_unfolding_all rfl
    · with_unfolding_all rfl
    · with_unfolding_all rfl

/-- Witness for C1 at the unit tests' FILE and DIRECTORY nodes. -/
theorem C1_witness :
    sampleFile.type = FileSystemNodeType.FILE ∧
    hasKey (_filesystem_node_to_json sampleFile) "children" = false ∧
    sampleDir.type = FileSystemNodeType.DIRECTORY ∧
    hasKey (_filesystem_node_to_json sampleDir) "children" = true ∧
    hasKey (_filesystem_node_to_json sampleDir) "content" = false :=
  ⟨by decide,
   ((C1_document_branches_on_kind sampleFile).1 (by decide)).2.2,
   by decide,
   ((C1_document_branches_on_kind sampleDir).2 (by decide)).1,
   ((C1_document_branches_on_kind sampleDir).2 (by decide)).2.2.1⟩

/-- Claim C2 evidence (code bug): the accumulated `total_size` of the walk
exceeds the 1 GiB ceiling, yet `get_tree_data` — which contains no size
check at all — returns HTTP 200 with `success = true`, no error, and the
full serialized document, instead of aborting with a `SizeLimitExceeded`
failure before serialization. -/
theorem C2_size_limit_not_enforced :
    MAX_TOTAL_SIZE_BYTES < largeRepoStats.total_size ∧
    (resolveRootNode largeRepoQuery largeRepoInputs).2 = some largeRepoStats ∧
    (get_tree_data largeRepoQuery (.ok largeRepoInputs)).status_code = 200 ∧
    (get_tree_data largeRepoQuery (.ok largeRepoInputs)).body.success = true ∧
    (get_tree_data largeRepoQuery (.ok largeRepoInputs)).body.error = none ∧
    (get_tree_data largeRepoQuery (.ok largeRepoInputs)).body.data =
      some (_filesystem_node_to_json largeRepoNode) :=
  ⟨by decide, rfl, rfl, rfl, rfl, rfl⟩

/-- Claim C3: every fatal error of the ingestion pipeline is returned as a
400 response whose body carries `success = false` and only the error
message string — the message propagated unchanged — with no document,
summary, or repository info alongside it. -/
theorem C3_fatal_error_response (q : QueryInfo) (e : String) :
    (get_tree_data q (.error e)).status_code = 400 ∧
    (get_tree_data q (.error e)).body.success = false ∧
    (get_tree_data q (.error e)).body.error = some e ∧
    (get_tree_data q (.error e)).body.data = none ∧
    (get_tree_data q (.error e)).body.summary = none ∧
    (get_tree_data q (.error e)).body.repo_info = none :=
  ⟨rfl, rfl, rfl, rfl, rfl, rfl⟩

/-- Claim C4: for a FILE node whose name is the final component of its path
(true of every node the traversal builds), the serialized `extension` field
is the lower-cased final suffix of the name including the leading dot, and
empty when the name has no suffix or is a dotfile: `"file.py"` yields
`".py"`, `"file.tar.gz"` yields `".gz"`, `"README"` and `".hidden"` yield
`""`. -/
theorem C4_extension_field (n : FileSystemNode)
    (hfile : n.type = FileSystemNodeType.FILE)
    (hname : pathFinalComponent n.path = n.name) :
    jsonLookup (_filesystem_node_to_json n) "extension" =
      some (JValue.s (if pySuffix n.name = "" then ""
                      else strLower (pySuffix n.name))) ∧
    fileExtension "file.py" = ".py" ∧
    fileExtension "file.tar.gz" = ".gz" ∧
    fileExtension "README" = "" ∧
    fileExtension ".hidden" = "" := by
  refine ⟨?_, by decide, by decide, by decide, by decide⟩
  obtain ⟨nm, ty, ps, p, sz, fc, dc, d, c, ch⟩ := n
  simp [FileSystemNode.type] at hfile
  subst hfile
  simp only [FileSystemNode.path, FileSystemNode.name] at hname
  have hx : jsonLookup
      (_filesystem_node_to_json (.mk nm .FILE ps p sz fc dc d c ch)) "extension" =
      some (JValue.s (fileExtension p)) := by with_unfolding_all rfl
  rw [FileSystemNode.name, hx]
  simp only [fileExtension, hname]

/-- Witness for C4 at the unit tests' `test.py` FILE node. -/
theorem C4_witness :
    sampleFile.type = FileSystemNodeType.FILE ∧
    pathFinalComponent sampleFile.path = sampleFile.name ∧
    jsonLookup (_filesystem_node_to_json sampleFile) "extension" =
      some (JValue.s (if pySuffix sampleFile.name = "" then ""
                      else strLower (pySuffix sampleFile.name))) :=
  ⟨by decide, by decide,
   (C4_extension_field sampleFile (by decide) (by decide)).1⟩

/-- Claim C5: serialization is structurally recursive and preserves
structure exactly — a DIRECTORY document's `children` list is the ordered
map of the serializer over the node's children (same length and order),
every document's `depth` field equals the node's `depth`, and every child
document's FILE/DIRECTORY branching matches that child's kind. -/
theorem C5_structure_preserved (n : FileSystemNode) :
    jsonLookup (_filesystem_node_to_json n) "depth" = some (JValue.n n.depth) ∧
    (n.type = FileSystemNodeType.DIRECTORY →
      jsonLookup (_filesystem_node_to_json n) "children" =
        some (JValue.arr (n.children.map _filesystem_node_to_json)) ∧
      (n.children.map _filesystem_node_to_json).length = n.children.length) ∧
    (∀ c ∈ n.children,
      jsonLookup (_filesystem_node_to_json c) "depth" = some (JValue.n c.depth) ∧
      hasKey (_filesystem_node_to_json c) "children" =
        decide (c.type = FileSystemNodeType.DIRECTORY) ∧
      hasKey (_filesystem_node_to_json c) "content" =
        decide (c.type = FileSystemNodeType.FILE)) :=
  ⟨lookup_depth n,
   fun h => ⟨lookup_children_map n h, by simp⟩,
   fun c _ => ⟨lookup_depth c, hasKey_children_eq c, hasKey_content_eq c⟩⟩

/-- Witness for C5 at the unit tests' directory with one child. -/
theorem C5_witness :
    jsonLookup (_filesystem_node_to_json sampleDir) "children" =
      some (JValue.arr (sampleDir.children.map _filesystem_node_to_json)) ∧
    jsonLookup (_filesystem_node_to_json sampleChild) "depth" =
      some (JValue.n sampleChild.depth) :=
  ⟨((C5_structure_preserved sampleDir).2.1 (by decide)).1,
   ((C5_structure_preserved sampleDir).2.2 sampleChild
      (List.mem_cons_self sampleChild [])).1⟩

/-- Claim C6: every serialized document contains the seven common fields —
`name`, the lower-cased kind label under the key `type` (only ever `"file"`
or `"directory"`), `path`, `size`, `depth`, `file_count`, `dir_count` —
each equal to the corresponding field of the node. -/
theorem C6_common_fields (n : FileSystemNode) :
    jsonLookup (_filesystem_node_to_json n) "name" = some (JValue.s n.name) ∧
    jsonLookup (_filesystem_node_to_json n) "type" =
      some (JValue.s (strLower n.type.enumName)) ∧
    (strLower n.type.enumName = "file" ∨ strLower n.type.enumName = "directory") ∧
    jsonLookup (_filesystem_node_to_json n) "path" = some (JValue.s n.path_str) ∧
    jsonLookup (_filesystem_node_to_json n) "size" = some (JValue.n n.size) ∧
    jsonLookup (_filesystem_node_to_json n) "depth" = some (JValue.n n.depth) ∧
    jsonLookup (_filesystem_node_to_json n) "file_count" =
      some (JValue.n n.file_count) ∧
    jsonLookup (_filesystem_node_to_json n) "dir_count" =
      some (JValue.n n.dir_count) := by
  obtain ⟨nm, ty, ps, p, sz, fc, dc, d, c, ch⟩ := n
  cases ty with
  | FILE =>
    refine ⟨?_, ?_, Or.inl (by with_unfolding_all rfl), ?_, ?_, ?_, ?_, ?_⟩ <;>
      with_unfolding_all rfl
  | DIRECTORY =>
    refine ⟨?_, ?_, Or.inr (by with_unfolding_all rfl), ?_, ?_, ?_, ?_, ?_⟩ <;>
      with_unfolding_all rfl

/-- Claim C7: serialization is deterministic — two invocations of the
serializer on equal trees produce identical documents (the serializer is a
pure function of the tree, with no other state). -/
theorem C7_deterministic (t1 t2 : FileSystemNode) (h : t1 = t2) :
    _filesystem_node_to_json t1 = _filesystem_node_to_json t2 := by
  rw [h]

/-- Witness for C7 at the unit tests' directory node. -/
theorem C7_witness :
    sampleDir = sampleDir ∧
    _filesystem_node_to_json sampleDir = _filesystem_node_to_json sampleDir :=
  ⟨rfl, C7_deterministic sampleDir sampleDir rfl⟩

/-- Claim C8: the serializer is a total pure function — for every node of
either kind it returns a mapping (9 entries for a FILE, 8 for a DIRECTORY)
always containing the seven common keys; it is a Lean function, so it
raises nothing and mutates nothing. -/
theorem C8_serializer_total (n : FileSystemNode) :
    (_filesystem_node_to_json n).length =
      (if n.type = FileSystemNodeType.FILE then 9 else 8) ∧
    hasKey (_filesystem_node_to_json n) "name" = true ∧
    hasKey (_filesystem_node_to_json n) "type" = true ∧
    hasKey (_filesystem_node_to_json n) "path" = true ∧
    hasKey (_filesystem_node_to_json n) "size" = true ∧
    hasKey (_filesystem_node_to_json n) "depth" = true ∧
    hasKey (_filesystem_node_to_json n) "file_count" = true ∧
    hasKey (_filesystem_node_to_json n) "dir_count" = true := by
  obtain ⟨nm, ty, ps, p, sz, fc, dc, d, c, ch⟩ := n
  cases ty with
  | FILE =>
    refine ⟨?_, ?_, ?_, ?_, ?_, ?_, ?_, ?_⟩ <;> with_unfolding_all rfl
  | DIRECTORY =>
    refine ⟨?_, ?_, ?_, ?_, ?_, ?_, ?_, ?_⟩ <;> with_unfolding_all rfl

/-- Claim C9: when the resolved root path is a file, `get_tree_data` builds
a FILE root node without invoking the tree builder (the result is the same
for any builder) and without creating a Stats Accumulator, so the
serialized document's `size`, `file_count` and `dir_count` are the
construction defaults (0), not measured values. -/
theorem C9_file_root_skips_builder (q : QueryInfo)
    (pathName pathStr pathAbs rootContent : String)
    (build build2 : FileSystemNode → FileSystemStats → FileSystemNode × FileSystemStats) :
    (resolveRootNode q ⟨pathName, pathStr, pathAbs, rootContent, false, build⟩).2 =
      none ∧
    (resolveRootNode q ⟨pathName, pathStr, pathAbs, rootContent, false, build⟩).1.type =
      FileSystemNodeType.FILE ∧
    resolveRootNode q ⟨pathName, pathStr, pathAbs, rootContent, false, build⟩ =
      resolveRootNode q ⟨pathName, pathStr, pathAbs, rootContent, false, build2⟩ ∧
    (resolveRootNode q ⟨pathName, pathStr, pathAbs, rootContent, false, build⟩).1.size = 0 ∧
    (resolveRootNode q ⟨pathName, pathStr, pathAbs, rootContent, false, build⟩).1.file_count = 0 ∧
    (resolveRootNode q ⟨pathName, pathStr, pathAbs, rootContent, false, build⟩).1.dir_count = 0 ∧
    jsonLookup (_filesystem_node_to_json
        (resolveRootNode q ⟨pathName, pathStr, pathAbs, rootContent, false, build⟩).1)
      "size" = some (JValue.n 0) ∧
    jsonLookup (_filesystem_node_to_json
        (resolveRootNode q ⟨pathName, pathStr, pathAbs, rootContent, false, build⟩).1)
      "file_count" = some (JValue.n 0) ∧
    jsonLookup (_filesystem_node_to_json
        (resolveRootNode q ⟨pathName, pathStr, pathAbs, rootContent, false, build⟩).1)
      "dir_count" = some (JValue.n 0) := by
  refine ⟨rfl, rfl, rfl, rfl, rfl, rfl, ?_, ?_, ?_⟩ <;> with_unfolding_all rfl

/-- Claim C10: on every successful ingestion whose base summary does not
itself contain the note text (true of any real slug), the returned summary
contains the line "Note: Repository appears to be empty" exactly when the
root's `file_count` and `dir_count` are both 0, and `repo_info` reports
`total_files` and `total_dirs` equal to the root's counts. -/
theorem C10_summary_note_iff_empty (q : QueryInfo) (i : IngestInputs)
    (hbase : ¬ List.IsInfix emptyRepoNote.data
        (baseSummary q.slug (resolveRootNode q i).1).data) :
    (get_tree_data q (.ok i)).body.summary =
      some (makeSummary q.slug (resolveRootNode q i).1) ∧
    (∀ s, (get_tree_data q (.ok i)).body.summary = some s →
      (List.IsInfix emptyRepoNote.data s.data ↔
        ((resolveRootNode q i).1.file_count = 0 ∧
         (resolveRootNode q i).1.dir_count = 0))) ∧
    (get_tree_data q (.ok i)).body.repo_info =
      some ⟨q.url, q.slug, q.user_name, q.repo_name,
            (resolveRootNode q i).1.file_count,
            (resolveRootNode q i).1.dir_count⟩ := by
  refine ⟨rfl, ?_, rfl⟩
  intro s hs
  have hs2 : some (makeSummary q.slug (resolveRootNode q i).1) = some s := hs
  have hsum := (Option.some.inj hs2).symm
  subst hsum
  unfold makeSummary
  by_cases hc : (resolveRootNode q i).1.file_count = 0 ∧
      (resolveRootNode q i).1.dir_count = 0
  · rw [if_pos hc]
    refine ⟨fun _ => hc, fun _ => ?_⟩
    have hsuf : emptyRepoNote.data <:+
        (baseSummary q.slug (resolveRootNode q i).1 ++
          ("\n" ++ emptyRepoNote)).data := by
      rw [String.data_append, String.data_append, ← List.append_assoc]
      exact List.suffix_append _ _
    exact hsuf.isInfix
  · rw [if_neg hc]
    exact ⟨fun hin => absurd hin hbase, fun h0 => absurd h0 hc⟩

/-- Witness for C10 at the empty-repository scenario: the note is present
and the reported totals are 0. -/
theorem C10_witness :
    (¬ List.IsInfix emptyRepoNote.data
        (baseSummary emptyRepoQuery.slug
          (resolveRootNode emptyRepoQuery emptyRepoInputs).1).data) ∧
    (get_tree_data emptyRepoQuery (.ok emptyRepoInputs)).body.summary =
      some (makeSummary emptyRepoQuery.slug
        (resolveRootNode emptyRepoQuery emptyRepoInputs).1) ∧
    (get_tree_data emptyRepoQuery (.ok emptyRepoInputs)).body.repo_info =
      some ⟨"https://github.com/user/empty-repo", "empty-repo", "user",
            "empty-repo", 0, 0⟩ :=
  ⟨by decide,
   (C10_summary_note_iff_empty emptyRepoQuery emptyRepoInputs (by decide)).1,
   (C10_summary_note_iff_empty emptyRepoQuery emptyRepoInputs (by decide)).2.2⟩

end TreeExplorer
